import Mathlib

/-!
Shallow embedding of the truesign-fastify-hook token verification pipeline.

The embedding follows `src/unnamed/part_001` (the revision that exposes the
pluggable extraction strategy `extractToken` / the injection key `injectInto`)
together with `src/index.ts`, whose `decryptTruesignToken` is identical.

JavaScript runtime values that flow through the pipeline (query containers,
decrypted JSON documents) are modelled by the inductive `Js`.  Functions that
may throw are modelled in `Except String`; a `try { … } catch` block is the
`match` that maps `.error` back to a normal result.  The external primitives
used by the decryptor — node's `crypto.createDecipheriv('aes-256-cbc', …)`
update/final chain and `JSON.parse` — are not code of this repository, so the
development is parameterised over them (`CryptoPrims`); every theorem about
the repository's own code holds for all behaviours of those primitives.
-/

namespace Truesign

/-- JavaScript runtime values: `undefined`, `null`, booleans, numbers,
strings, arrays and plain objects (association lists of fields). -/
inductive Js where
  | undefined
  | null
  | bool (b : Bool)
  | num (n : Int)
  | str (s : String)
  | arr (elems : List Js)
  | obj (fields : List (String × Js))

/-- `isRecord` from the source: `typeof value === 'object' && value !== null
&& !Array.isArray(value)`.  Only plain objects qualify. -/
def isRecord : Js → Bool
  | .obj _ => true
  | _ => false

/-- JavaScript property read `v[key]`: an absent key yields `undefined`, and
reading a property of a non-object is only performed after `isRecord` in the
source, so modelling it as `undefined` is unreachable there. -/
def jsGet (v : Js) (key : String) : Js :=
  match v with
  | .obj fields => (fields.lookup key).getD .undefined
  | _ => .undefined

/-- A header value in fastify: `string | string[]` (an absent name is
`undefined`, modelled by `Option.none` at the lookup). -/
inductive HeaderVal where
  | str (s : String)
  | strs (l : List String)

/-- The part of `FastifyRequest` the hook reads (see `fastify.d.ts`):
`query : unknown` and `headers : Record<string, string | string[] |
undefined>`. -/
structure FastifyRequest where
  query : Js
  headers : List (String × HeaderVal)

/-- Header lookup `req.headers[name]`; `none` models `undefined`. -/
def getHeader (req : FastifyRequest) (name : String) : Option HeaderVal :=
  req.headers.lookup name

/-- `extractTruesignTokenFromQuery(queryParam)` applied to a request: return
the query value at `queryParam` only when the query container is a record and
the value is a non-empty string (`typeof tsToken !== 'string' || !tsToken`
fails soft with `null`). -/
def extractTruesignTokenFromQuery (queryParam : String) (req : FastifyRequest) :
    Option String :=
  if ¬ isRecord req.query then none
  else
    match jsGet req.query queryParam with
    | .str s => if s = "" then none else some s
    | _ => none

/-- ASCII lowercase of a character, modelling what
`String.prototype.toLowerCase()` does on the ASCII header names this hook
uses. -/
def charToLower (c : Char) : Char :=
  if c.isUpper then Char.ofNat (c.toNat + 32) else c

/-- Executable model of `headerName.toLowerCase()` (characterwise). -/
def strToLower (s : String) : String :=
  ⟨s.data.map charToLower⟩

/-- `extractTruesignTokenFromHeader(headerName)` applied to a request: the
name is lowercased before lookup, and the value is returned only when it is a
single non-empty string; a `string[]` value is explicitly excluded. -/
def extractTruesignTokenFromHeader (headerName : String) (req : FastifyRequest) :
    Option String :=
  let headerNameLower := strToLower headerName
  match getHeader req headerNameLower with
  | some (.str s) => if s = "" then none else some s
  | _ => none

/-- `ExtractTrueSignTokenOptions`: optional query-parameter and header
names. -/
structure ExtractTrueSignTokenOptions where
  queryParam : Option String
  headerName : Option String

/-- `DEFAULT_EXTRACT_QUERY_PARAM` from the source. -/
def DEFAULT_EXTRACT_QUERY_PARAM : String := "ts-token"

/-- `DEFAULT_EXTRACT_HEADER_NAME` from the source. -/
def DEFAULT_EXTRACT_HEADER_NAME : String := "x-ts-token"

/-- The options value for the source call `extractTrueSignToken()`. -/
def defaultExtractOptions : ExtractTrueSignTokenOptions := ⟨none, none⟩

/-- `extractTrueSignToken(options)` applied to a request: try the query
parameter first, and only when that yields `null` (modelled `none`, matching
the nullish `??`) fall back to the header. -/
def extractTrueSignToken (options : ExtractTrueSignTokenOptions)
    (req : FastifyRequest) : Option String :=
  let queryParam := options.queryParam.getD DEFAULT_EXTRACT_QUERY_PARAM
  let headerName := options.headerName.getD DEFAULT_EXTRACT_HEADER_NAME
  match extractTruesignTokenFromQuery queryParam req with
  | some s => some s
  | none => extractTruesignTokenFromHeader headerName req

/-- `IV_LENGTH` from `decryptTruesignToken` (AES-256-CBC). -/
def IV_LENGTH : Nat := 16

/-- The external primitives `decryptTruesignToken` calls, abstract because
they are node builtins, not code of this repository:
`aesDecrypt key iv base64Ciphertext` models
`createDecipheriv('aes-256-cbc', key, iv)` followed by
`update(msg, 'base64', 'utf8') + final('utf8')` (any step may throw), and
`jsonParse` models `JSON.parse` (which may throw). -/
structure CryptoPrims where
  aesDecrypt : String → String → String → Except String String
  jsonParse : String → Except String Js

/-- The body of the `try` block of `decryptTruesignToken`: split the token
into `iv = token.substring(0, IV_LENGTH)` and the remaining base64 message,
run the cipher, then `JSON.parse` the decrypted text.  Any `.error` is a
thrown JavaScript exception. -/
def decryptBody (prims : CryptoPrims) (encryptionKey token : String) :
    Except String Js :=
  let iv := token.take IV_LENGTH
  let encryptedMsg := token.drop IV_LENGTH
  match prims.aesDecrypt encryptionKey iv encryptedMsg with
  | .error e => .error e
  | .ok decryptedTxt => prims.jsonParse decryptedTxt

/-- `decryptTruesignToken(encryptionKey, token)`: short inputs fail fast with
`null`; otherwise the `try { … } catch` catches every thrown error and
returns `null`. -/
def decryptTruesignToken (prims : CryptoPrims) (encryptionKey token : String) :
    Option Js :=
  if token.length < IV_LENGTH then none
  else
    match decryptBody prims encryptionKey token with
    | .ok t => some t
    | .error _ => none

/-- The observable effects of one hook invocation: the status code passed to
`res.code`, whether `res.send()` was called (always with an empty body in the
source), whether the `next` callback was invoked, and the record injected
into the request (key and value), if any. -/
structure HookResult where
  status : Option Nat
  sent : Bool
  nextCalled : Bool
  injected : Option (String × Js)

/-- The effect of `res.code(401).send()` with `next` not invoked. -/
def denied401 : HookResult :=
  { status := some 401, sent := true, nextCalled := false, injected := none }

/-- The effect of calling `next()` (no status set, nothing sent), with the
record injected under `injected`, if any. -/
def proceedResult (injected : Option (String × Js)) : HookResult :=
  { status := none, sent := false, nextCalled := true, injected := injected }

/-- `TruesignHookConfig` (the `part_001` revision).  Caller-supplied
functions may throw, hence `Except String`.  In the source
`shouldAcceptToken` also receives the (read-only) config object as a second
argument; quantifying over arbitrary predicates of the token subsumes that
closure, so the config argument is elided here. -/
structure TruesignHookConfig where
  encryptionKey : String
  allowUnauthenticated : Bool
  shouldAcceptToken : Option (Js → Except String Bool)
  extractToken : Option (FastifyRequest → Except String (Option String))
  decryptFunction : Option (String → String → Except String (Option Js))
  injectInto : Option String

/-- `config.shouldAcceptToken ?? (() => true)`. -/
def resolvedAccept (config : TruesignHookConfig) : Js → Except String Bool :=
  config.shouldAcceptToken.getD (fun _ => .ok true)

/-- `config.extractToken ?? extractTrueSignToken()` — the default extraction
function never throws. -/
def resolvedExtract (config : TruesignHookConfig) :
    FastifyRequest → Except String (Option String) :=
  config.extractToken.getD (fun r => .ok (extractTrueSignToken defaultExtractOptions r))

/-- `config.decryptFunction ?? decryptTruesignToken` — the default decrypt
function never throws (its internal try/catch fails soft). -/
def resolvedDecrypt (prims : CryptoPrims) (config : TruesignHookConfig) :
    String → String → Except String (Option Js) :=
  config.decryptFunction.getD (fun k t => .ok (decryptTruesignToken prims k t))

/-- `config.injectInto || 'ts-token'` — the JavaScript `||` also replaces an
explicitly supplied empty string by the default. -/
def resolvedInjectInto (config : TruesignHookConfig) : String :=
  match config.injectInto with
  | some s => if s = "" then "ts-token" else s
  | none => "ts-token"

/-- The body of the `try` block of the per-request hook: verify the query
container is a record (else throw), extract the token (absent or empty →
401), decrypt (null → 401), evaluate the policy (false → 401), else inject
the decrypted record under the configured key and call `next()`.  An
`.error` is an exception propagating inside the `try`. -/
def hookBody (prims : CryptoPrims) (config : TruesignHookConfig)
    (req : FastifyRequest) : Except String HookResult :=
  if ¬ isRecord req.query then
    .error "`req.query` is not a record"
  else
    match resolvedExtract config req with
    | .error e => .error e
    | .ok none => .ok denied401
    | .ok (some tsToken) =>
      if tsToken = "" then .ok denied401
      else
        match resolvedDecrypt prims config config.encryptionKey tsToken with
        | .error e => .error e
        | .ok none => .ok denied401
        | .ok (some decryptedToken) =>
          match resolvedAccept config decryptedToken with
          | .error e => .error e
          | .ok false => .ok denied401
          | .ok true => .ok (proceedResult (some (resolvedInjectInto config, decryptedToken)))

/-- The full per-request hook: the surrounding `catch` maps any exception to
`res.code(401).send()`.  Total — no exception reaches the host framework. -/
def runHook (prims : CryptoPrims) (config : TruesignHookConfig)
    (req : FastifyRequest) : HookResult :=
  match hookBody prims config req with
  | .ok r => r
  | .error _ => denied401

/-- `getTruesignHook(config)`: with the bypass flag set, return a hook that
only calls `next()`; otherwise an empty `encryptionKey` throws at
construction time; otherwise return the per-request hook. -/
def getTruesignHook (prims : CryptoPrims) (config : TruesignHookConfig) :
    Except String (FastifyRequest → HookResult) :=
  if config.allowUnauthenticated then
    .ok (fun _req => proceedResult none)
  else if config.encryptionKey = "" then
    .error "`encryptionKey` is required when `allowUnauthenticated` is false"
  else
    .ok (runHook prims config)

/-! Concrete instances used by witnesses. -/

/-- A behaviour of the external primitives in which every call throws. -/
def failPrims : CryptoPrims :=
  { aesDecrypt := fun _ _ _ => .error "bad decrypt"
    jsonParse := fun _ => .error "bad json" }

/-- A behaviour of the external primitives in which decryption yields the
text `"null"` and parsing yields the JSON value `null`. -/
def okPrims : CryptoPrims :=
  { aesDecrypt := fun _ _ _ => .ok "null"
    jsonParse := fun s => if s = "null" then .ok .null else .error "bad json" }

/-- A configuration with an empty encryption key and the bypass flag off. -/
def emptyKeyConfig : TruesignHookConfig :=
  { encryptionKey := "", allowUnauthenticated := false, shouldAcceptToken := none
    extractToken := none, decryptFunction := none, injectInto := none }

/-- A configuration with an empty encryption key and the bypass flag on. -/
def bypassConfig : TruesignHookConfig :=
  { encryptionKey := "", allowUnauthenticated := true, shouldAcceptToken := none
    extractToken := none, decryptFunction := none, injectInto := none }

/-- A request carrying only the default token header. -/
def headerOnlyReq : FastifyRequest :=
  { query := .obj [], headers := [("x-ts-token", .str "tok")] }

/-- A request whose query duplicates the default token both in the query and
in the default header. -/
def bothSourcesReq : FastifyRequest :=
  { query := .obj [("ts-token", .str "Q")], headers := [("x-ts-token", .str "H")] }

/-- A configuration with a non-empty key and the bypass flag off, all other
options left at their defaults. -/
def plainConfig : TruesignHookConfig :=
  { encryptionKey := "k", allowUnauthenticated := false, shouldAcceptToken := none
    extractToken := none, decryptFunction := none, injectInto := none }

/-- A request with an empty-object query and no headers. -/
def plainReq : FastifyRequest :=
  { query := .obj [], headers := [] }

/-- `plainConfig` with a stubbed decrypt function that always succeeds with
the JSON value `null` (mirroring the test double `decryptFn: () => ({...})`
of the spec scenario). -/
def acceptConfig : TruesignHookConfig :=
  { encryptionKey := "k", allowUnauthenticated := false, shouldAcceptToken := none
    extractToken := none, decryptFunction := some (fun _ _ => .ok (some .null))
    injectInto := none }

/-- A request with the default token query parameter set. -/
def tokenReq : FastifyRequest :=
  { query := .obj [("ts-token", .str "anything")], headers := [] }

/-- `plainConfig` with a caller-supplied header-only extraction function. -/
def headerExtractConfig : TruesignHookConfig :=
  { encryptionKey := "k", allowUnauthenticated := false, shouldAcceptToken := none
    extractToken := some (fun r => .ok (extractTruesignTokenFromHeader "x-ts-token" r))
    decryptFunction := none, injectInto := none }

/-- A request whose query container is an array (malformed) while a valid
token sits in the default header. -/
def arrayQueryReq : FastifyRequest :=
  { query := .arr [], headers := [("x-ts-token", .str "valid")] }

/-- Field lookup satisfying a value predicate. -/
def fieldIs (fields : List (String × Js)) (key : String) (p : Js → Bool) : Bool :=
  match fields.lookup key with
  | some v => p v
  | none => false

/-- Field presence. -/
def hasField (fields : List (String × Js)) (key : String) : Bool :=
  (fields.lookup key).isSome

/-- Recognizer for JSON booleans. -/
def isBoolJs : Js → Bool
  | .bool _ => true
  | _ => false

/-- Recognizer for JSON numbers. -/
def isNumJs : Js → Bool
  | .num _ => true
  | _ => false

/-- Recognizer for JSON strings. -/
def isStrJs : Js → Bool
  | .str _ => true
  | _ => false

/-- The `DecryptedToken` shape asserted by the claim (from the type
declarations of `src/index.ts` and the spec's data model): the base fields,
the email sub-record present as a group or entirely absent, and exactly one
IP sub-record (`ipv4` or `ipv6`).  This predicate states the claimed shape;
the source performs no such runtime check. -/
def isDecryptedTokenShape : Js → Bool
  | .obj fields =>
      fieldIs fields "bot" isBoolJs &&
      fieldIs fields "anonymizer" isBoolJs &&
      fieldIs fields "clusterId" isStrJs &&
      fieldIs fields "uniqueKey" isNumJs &&
      fieldIs fields "timestamp" isNumJs &&
      fieldIs fields "country" isStrJs &&
      ((fieldIs fields "email" isStrJs &&
        fieldIs fields "disposable" isBoolJs &&
        fieldIs fields "notDeliverable" isBoolJs) ||
       (!hasField fields "email" && !hasField fields "disposable" &&
        !hasField fields "notDeliverable" && !hasField fields "typo")) &&
      ((fieldIs fields "ipv4" isStrJs && !hasField fields "ipv6") ||
       (fieldIs fields "ipv6" isStrJs && !hasField fields "ipv4"))
  | _ => false

/-- A behaviour of the external primitives in which the cipher succeeds with
the plaintext `"5"` and `JSON.parse` parses it as the number `5` — the
actual behaviour of `JSON.parse` on that text, and a reachable output of an
unauthenticated CBC decryption on attacker-chosen ciphertext. -/
def cexPrims : CryptoPrims :=
  { aesDecrypt := fun _ _ _ => .ok "5"
    jsonParse := fun s => if s = "5" then .ok (.num 5) else .error "bad json" }

/-! Helper lemmas shared by the claim theorems. -/

/-- With the bypass flag off, a successful construction returns exactly the
per-request hook `runHook`. -/
theorem getTruesignHook_ok_elim (prims : CryptoPrims) (config : TruesignHookConfig)
    (h : FastifyRequest → HookResult)
    (hb : config.allowUnauthenticated = false)
    (hok : getTruesignHook prims config = .ok h) :
    h = runHook prims config := by
  by_cases hk : config.encryptionKey = ""
  · simp [getTruesignHook, hb, hk] at hok
  · simp [getTruesignHook, hb, hk] at hok
    exact hok.symm

/-- Every successful run of the hook body is either the 401 denial or an
acceptance carrying the injected record. -/
theorem hookBody_ok_cases (prims : CryptoPrims) (config : TruesignHookConfig)
    (req : FastifyRequest) (r : HookResult)
    (h : hookBody prims config req = .ok r) :
    r = denied401 ∨ ∃ t, r = proceedResult (some (resolvedInjectInto config, t)) := by
  unfold hookBody at h
  split at h
  · exact Except.noConfusion h
  · split at h
    · exact Except.noConfusion h
    · exact Or.inl (Except.ok.inj h).symm
    · split at h
      · exact Or.inl (Except.ok.inj h).symm
      · split at h
        · exact Except.noConfusion h
        · exact Or.inl (Except.ok.inj h).symm
        · split at h
          · exact Except.noConfusion h
          · exact Or.inl (Except.ok.inj h).symm
          · exact Or.inr ⟨_, (Except.ok.inj h).symm⟩

/-- Default extraction returns the query hit regardless of the headers. -/
theorem extract_query_hit (qfields : List (String × Js))
    (hdrs : List (String × HeaderVal)) (q : String)
    (hl : qfields.lookup "ts-token" = some (.str q)) (hq : q ≠ "") :
    extractTrueSignToken defaultExtractOptions ⟨.obj qfields, hdrs⟩ = some q := by
  simp [extractTrueSignToken, defaultExtractOptions, DEFAULT_EXTRACT_QUERY_PARAM,
    extractTruesignTokenFromQuery, isRecord, jsGet, hl, hq]

/-! Claim theorems. -/

/-- C1: for every encryption key and every raw token string,
`decryptTruesignToken` returns either a decrypted value or `null` and never
throws — and whenever any step of the decode chain inside the `try` block
throws (invalid IV, invalid base64, cipher format error, malformed JSON,
i.e. any `.error` of `decryptBody` under any behaviour of the external
primitives), the error is caught and converted to `null`. -/
theorem c1_decrypt_never_throws (prims : CryptoPrims) (encryptionKey token : String) :
    ((∃ t, decryptTruesignToken prims encryptionKey token = some t) ∨
      decryptTruesignToken prims encryptionKey token = none) ∧
    (∀ e, decryptBody prims encryptionKey token = .error e →
      decryptTruesignToken prims encryptionKey token = none) := by
  constructor
  · cases h : decryptTruesignToken prims encryptionKey token
    · exact Or.inr rfl
    · exact Or.inl ⟨_, rfl⟩
  · intro e he
    unfold decryptTruesignToken
    split
    · rfl
    · rw [he]

/-- C1 witness: a failing cipher behaviour on a 16-character token is caught
and yields `null`. -/
theorem c1_witness :
    decryptTruesignToken failPrims "k" "0123456789abcdef" = none :=
  (c1_decrypt_never_throws failPrims "k" "0123456789abcdef").2 "bad decrypt" rfl

/-- C6: `getTruesignHook` throws at construction time if and only if the
bypass flag is unset and the encryption key is empty; the hooks it returns
are total functions into `HookResult`, so no per-request path raises a
missing-key error. -/
theorem c6_construction_throws_iff (prims : CryptoPrims) (config : TruesignHookConfig) :
    (∃ e, getTruesignHook prims config = .error e) ↔
      (config.allowUnauthenticated = false ∧ config.encryptionKey = "") := by
  unfold getTruesignHook
  by_cases hb : config.allowUnauthenticated <;> by_cases hk : config.encryptionKey = "" <;>
    simp [hb, hk]

/-- C6 witness: an empty key with bypass off makes construction throw. -/
theorem c6_witness :
    ∃ e, getTruesignHook failPrims emptyKeyConfig = .error e :=
  (c6_construction_throws_iff failPrims emptyKeyConfig).mpr ⟨rfl, rfl⟩

/-- C7: with the bypass flag on, construction succeeds (even with an empty
encryption key, since the key check is skipped) and the returned hook is the
constant function that only calls `next()` — it sets no status, sends
nothing, injects nothing, and, being identical for every behaviour of the
primitives and every extraction/decryption/policy configuration, invokes
none of them. -/
theorem c7_bypass (prims : CryptoPrims) (config : TruesignHookConfig)
    (h : config.allowUnauthenticated = true) :
    getTruesignHook prims config = .ok (fun _req => proceedResult none) ∧
    ∀ (prims2 : CryptoPrims) (config2 : TruesignHookConfig),
      config2.allowUnauthenticated = true →
      getTruesignHook prims2 config2 = getTruesignHook prims config := by
  constructor
  · simp [getTruesignHook, h]
  · intro prims2 config2 h2
    simp [getTruesignHook, h, h2]

/-- C7 witness: bypass with an empty key constructs the pass-through hook. -/
theorem c7_witness :
    getTruesignHook failPrims bypassConfig = .ok (fun _req => proceedResult none) :=
  (c7_bypass failPrims bypassConfig rfl).1

/-- C8: every raw token shorter than `IV_LENGTH = 16` makes
`decryptTruesignToken` return `null` immediately, for every encryption key
and — since the theorem holds for every behaviour of the external
primitives — without invoking the cipher. -/
theorem c8_short_token_returns_null (prims : CryptoPrims)
    (encryptionKey token : String) (h : token.length < IV_LENGTH) :
    decryptTruesignToken prims encryptionKey token = none := by
  simp [decryptTruesignToken, h]

/-- C8 witness: a 5-character token is rejected without decryption. -/
theorem c8_witness : decryptTruesignToken okPrims "k" "short" = none :=
  c8_short_token_returns_null okPrims "k" "short" (by decide)

/-- C9: the extractor built by `extractTruesignTokenFromHeader` looks up the
lowercased header name and returns the value only when it is a single
non-empty string; a multi-valued (string array), absent, or empty-string
header yields `none`, with no exception path. -/
theorem c9_header_extractor (headerName : String) :
    (∀ req s, getHeader req (strToLower headerName) = some (.str s) → s ≠ "" →
      extractTruesignTokenFromHeader headerName req = some s) ∧
    (∀ req l, getHeader req (strToLower headerName) = some (.strs l) →
      extractTruesignTokenFromHeader headerName req = none) ∧
    (∀ req, getHeader req (strToLower headerName) = none →
      extractTruesignTokenFromHeader headerName req = none) ∧
    (∀ req, getHeader req (strToLower headerName) = some (.str "") →
      extractTruesignTokenFromHeader headerName req = none) := by
  refine ⟨?_, ?_, ?_, ?_⟩
  · intro req s h hs
    simp [extractTruesignTokenFromHeader, h, hs]
  · intro req l h
    simp [extractTruesignTokenFromHeader, h]
  · intro req h
    simp [extractTruesignTokenFromHeader, h]
  · intro req h
    simp [extractTruesignTokenFromHeader, h]

/-- C9 witness: a mixed-case name is lowercased and the single non-empty
header value is returned. -/
theorem c9_witness :
    extractTruesignTokenFromHeader "X-TS-Token" headerOnlyReq = some "tok" :=
  (c9_header_extractor "X-TS-Token").1 headerOnlyReq "tok" rfl (by decide)

/-- C2: with the bypass flag off, every run of a constructed hook either
accepts (injecting the record) or produces exactly the single denial effect
`denied401` — status 401, empty body sent, `next` not invoked.  The four
failure modes (no token, decryption null, policy false, exception inside
extraction/decryption/policy) thus all map to the same observable response;
the hook is a total function into `HookResult`, so no exception reaches the
host framework. -/
theorem c2_failures_indistinguishable (prims : CryptoPrims)
    (config : TruesignHookConfig) (h : FastifyRequest → HookResult)
    (req : FastifyRequest)
    (hb : config.allowUnauthenticated = false)
    (hok : getTruesignHook prims config = .ok h) :
    h req = denied401 ∨
      ∃ t, h req = proceedResult (some (resolvedInjectInto config, t)) := by
  have hr := getTruesignHook_ok_elim prims config h hb hok
  subst hr
  rcases h1 : hookBody prims config req with e | r
  · exact Or.inl (by simp [runHook, h1])
  · rcases hookBody_ok_cases prims config req r h1 with h2 | ⟨t, h2⟩
    · exact Or.inl (by simp [runHook, h1, h2])
    · exact Or.inr ⟨t, by simp [runHook, h1, h2]⟩

/-- C2 witness: on a request with no token, the constructed hook's run
satisfies the dichotomy (here by the denial side). -/
theorem c2_witness :
    runHook okPrims plainConfig plainReq = denied401 ∨
      ∃ t, runHook okPrims plainConfig plainReq =
        proceedResult (some (resolvedInjectInto plainConfig, t)) :=
  c2_failures_indistinguishable okPrims plainConfig (runHook okPrims plainConfig)
    plainReq rfl rfl

/-- C3: with the bypass flag off, when the query container is a record, the
extraction step yields a non-empty token, decryption yields a non-null
record and the acceptance policy returns true, the hook injects the record
under the configured key (default `ts-token`), calls `next()` and sets no
status. -/
theorem c3_accept_attaches_and_continues (prims : CryptoPrims)
    (config : TruesignHookConfig) (h : FastifyRequest → HookResult)
    (req : FastifyRequest) (s : String) (t : Js)
    (hb : config.allowUnauthenticated = false)
    (hok : getTruesignHook prims config = .ok h)
    (hq : isRecord req.query = true)
    (hx : resolvedExtract config req = .ok (some s))
    (hs : s ≠ "")
    (hd : resolvedDecrypt prims config config.encryptionKey s = .ok (some t))
    (ha : resolvedAccept config t = .ok true) :
    h req = proceedResult (some (resolvedInjectInto config, t)) := by
  have hr := getTruesignHook_ok_elim prims config h hb hok
  subst hr
  simp [runHook, hookBody, hq, hx, hs, hd, ha]

/-- C3 witness: the spec scenario — default extraction, query
`ts-token = "anything"`, stubbed decrypt returning a record, accept-all
policy — attaches the record under the default key and calls `next()`. -/
theorem c3_witness :
    runHook okPrims acceptConfig tokenReq =
      proceedResult (some (resolvedInjectInto acceptConfig, .null)) :=
  c3_accept_attaches_and_continues okPrims acceptConfig
    (runHook okPrims acceptConfig) tokenReq "anything" .null
    rfl rfl rfl rfl (by decide) rfl rfl

/-- C4: with both the default query parameter and the default header
non-empty, the default extraction strategy returns the query value, never
the header value; the header is consulted only when query extraction returns
absent; and the pipeline's observable outcome is therefore the same as if
the headers were not there at all, for every decrypt function and policy. -/
theorem c4_query_precedence :
    (∀ (qfields : List (String × Js)) (hdrs : List (String × HeaderVal))
        (q hv : String),
      qfields.lookup "ts-token" = some (.str q) → q ≠ "" →
      getHeader ⟨.obj qfields, hdrs⟩ "x-ts-token" = some (.str hv) → hv ≠ "" →
      extractTrueSignToken defaultExtractOptions ⟨.obj qfields, hdrs⟩ = some q) ∧
    (∀ req, extractTruesignTokenFromQuery DEFAULT_EXTRACT_QUERY_PARAM req = none →
      extractTrueSignToken defaultExtractOptions req =
        extractTruesignTokenFromHeader DEFAULT_EXTRACT_HEADER_NAME req) ∧
    (∀ (prims : CryptoPrims) (config : TruesignHookConfig)
        (qfields : List (String × Js)) (hdrs : List (String × HeaderVal))
        (q : String),
      config.extractToken = none →
      qfields.lookup "ts-token" = some (.str q) → q ≠ "" →
      runHook prims config ⟨.obj qfields, hdrs⟩ =
        runHook prims config ⟨.obj qfields, []⟩) := by
  refine ⟨?_, ?_, ?_⟩
  · intro qfields hdrs q hv hl hq _ _
    exact extract_query_hit qfields hdrs q hl hq
  · intro req hnone
    simp [extractTrueSignToken, defaultExtractOptions, hnone]
  · intro prims config qfields hdrs q hx hl hq
    have e1 := extract_query_hit qfields hdrs q hl hq
    have e2 := extract_query_hit qfields [] q hl hq
    simp [runHook, hookBody, resolvedExtract, hx, isRecord, e1, e2]

/-- C4 witness: query `"Q"` and header `"H"` present together — extraction
returns `"Q"`. -/
theorem c4_witness :
    extractTrueSignToken defaultExtractOptions bothSourcesReq = some "Q" :=
  c4_query_precedence.1 [("ts-token", .str "Q")] [("x-ts-token", .str "H")]
    "Q" "H" rfl (by decide) rfl (by decide)

/-- C5 counterexample: the claim "every successful decryption matches the
DecryptedToken shape" is false on the code — `decryptTruesignToken` performs
no structural validation, so when the decode chain produces the JSON number
`5` the function returns it even though it has none of the required
fields. -/
theorem c5_counterexample :
    decryptTruesignToken cexPrims "k" "0123456789abcdef" = some (.num 5) ∧
    isDecryptedTokenShape (.num 5) = false :=
  ⟨rfl, rfl⟩

/-- C5 (amended): for every input on which `decryptTruesignToken` succeeds,
the returned value is exactly the successfully parsed JSON document produced
by the decode chain (so it is valid JSON); no structural validation beyond
JSON parsing is performed, the issuer's schema being trusted. -/
theorem c5_success_is_parsed_json (prims : CryptoPrims)
    (encryptionKey token : String) (v : Js)
    (h : decryptTruesignToken prims encryptionKey token = some v) :
    IV_LENGTH ≤ token.length ∧
    ∃ txt, prims.aesDecrypt encryptionKey (token.take IV_LENGTH)
        (token.drop IV_LENGTH) = .ok txt ∧
      prims.jsonParse txt = .ok v := by
  unfold decryptTruesignToken at h
  split at h
  · exact Option.noConfusion h
  · next hlen =>
    refine ⟨Nat.le_of_not_lt hlen, ?_⟩
    unfold decryptBody at h
    rcases ha : prims.aesDecrypt encryptionKey (token.take IV_LENGTH)
        (token.drop IV_LENGTH) with e | txt
    · simp [ha] at h
    · simp only [ha] at h
      refine ⟨txt, rfl, ?_⟩
      rcases hj : prims.jsonParse txt with e | j
      · simp [hj] at h
      · simp only [hj] at h
        simp at h
        rw [h]

/-- C5 witness: on the counterexample primitives the successful result is
the parsed JSON document of the decrypted text. -/
theorem c5_witness :
    IV_LENGTH ≤ ("0123456789abcdef" : String).length ∧
    ∃ txt, cexPrims.aesDecrypt "k" (("0123456789abcdef" : String).take IV_LENGTH)
        (("0123456789abcdef" : String).drop IV_LENGTH) = .ok txt ∧
      cexPrims.jsonParse txt = .ok (.num 5) :=
  c5_success_is_parsed_json cexPrims "k" "0123456789abcdef" (.num 5) rfl

/-- C10: with the bypass flag off, the constructed hook checks that the
query container is a record before invoking the extraction function, so a
request with a malformed query container (array, null, non-object) is
rejected with the 401 denial even when a caller-supplied header-only
extraction function would have found a valid token. -/
theorem c10_query_guard (prims : CryptoPrims) (config : TruesignHookConfig)
    (h : FastifyRequest → HookResult) (req : FastifyRequest)
    (hb : config.allowUnauthenticated = false)
    (hok : getTruesignHook prims config = .ok h)
    (hq : isRecord req.query = false) :
    h req = denied401 := by
  have hr := getTruesignHook_ok_elim prims config h hb hok
  subst hr
  simp [runHook, hookBody, hq]

/-- C10 witness: an array query container with a valid token in the header
and a header-only custom extractor is still denied. -/
theorem c10_witness :
    runHook okPrims headerExtractConfig arrayQueryReq = denied401 :=
  c10_query_guard okPrims headerExtractConfig
    (runHook okPrims headerExtractConfig) arrayQueryReq rfl rfl rfl

end Truesign
